import Mathlib

/-!
Shallow embedding of the `elasticsearch-products-api` Go service:
the Product entity model (`models/product.go`), the query builder and
storage gateway of `repository.ProductRepository` (Create / GetByID /
Update / Search), and index bootstrap (`config.CreateProductIndex`).
Timestamps (`time.Time` instants returned by `time.Now()`) are modelled
as integers passed in explicitly, one per clock read in the source; the
fresh UUID of `uuid.New().String()` is an explicit string argument.
Go `int` fields are modelled as `ℤ`, `float64` request/entity fields as
`ℚ`, and the Painless scoring script `double` arithmetic as `ℝ`.
-/

namespace ElasticsearchProducts

/-- `models.Product` (the enriched variant with rating / engagement /
business fields used by the seven-factor scoring script). -/
structure Product where
  id : String
  name : String
  description : String
  price : ℚ
  category : String
  stock : ℤ
  rating : ℚ
  reviewCount : ℤ
  salesCount : ℤ
  viewCount : ℤ
  ctr : ℚ
  isPromoted : Bool
  margin : ℚ
  createdAt : ℤ
  updatedAt : ℤ
deriving DecidableEq, Repr

/-- `models.ProductSearchRequest`: query parameters of the search endpoint. -/
structure ProductSearchRequest where
  query : String
  category : String
  minPrice : ℚ
  maxPrice : ℚ
  page : ℤ
  pageSize : ℤ
deriving DecidableEq, Repr

/-- One entry of the `must` clause list built by `Search`. -/
inductive MustClause where
  | multiMatch (query : String) (fields : List String) (fuzziness : String) (matchType : String)
  | termFilter (field : String) (value : String)
  | rangeFilter (field : String) (gte : Option ℚ) (lte : Option ℚ)
deriving DecidableEq, Repr

/-- The structured query document `Search` wraps in `script_score`. -/
inductive EsQuery where
  | boolMust (clauses : List MustClause)
  | matchAll
deriving DecidableEq, Repr

/-- Text clause of `Search` (part_003 lines 198-207): emitted only for a
non-empty free-text query, a `multi_match` over the four listed fields
with fuzziness AUTO and type best_fields. -/
def textMatchClauses (req : ProductSearchRequest) : List MustClause :=
  if req.query = "" then []
  else
    [MustClause.multiMatch req.query
      ["name.autocomplete^3", "name^2", "description.autocomplete", "description"]
      "AUTO" "best_fields"]

/-- Category clause of `Search` (part_003 lines 210-216): an exact `term`
filter on `category`, emitted only when the category string is non-empty. -/
def categoryClauses (req : ProductSearchRequest) : List MustClause :=
  if req.category = "" then []
  else [MustClause.termFilter "category" req.category]

/-- Price clause of `Search` (part_003 lines 219-232): a `range` filter on
`price` emitted when either bound is strictly positive, carrying `gte`
exactly when `MinPrice > 0` and `lte` exactly when `MaxPrice > 0`. -/
def priceRangeClauses (req : ProductSearchRequest) : List MustClause :=
  if 0 < req.minPrice ∨ 0 < req.maxPrice then
    [MustClause.rangeFilter "price"
      (if 0 < req.minPrice then some req.minPrice else none)
      (if 0 < req.maxPrice then some req.maxPrice else none)]
  else []

/-- The `mustClauses` list of `Search`, appended in source order:
text clause, then category clause, then price clause. -/
def buildMustClauses (req : ProductSearchRequest) : List MustClause :=
  textMatchClauses req ++ categoryClauses req ++ priceRangeClauses req

/-- part_003 lines 234-244: a `bool`/`must` query when the clause list is
non-empty, otherwise `match_all`. -/
def buildQuery (req : ProductSearchRequest) : EsQuery :=
  if 0 < (buildMustClauses req).length then EsQuery.boolMust (buildMustClauses req)
  else EsQuery.matchAll

/-- part_003 lines 183-185: `if searchReq.Page < 1 { searchReq.Page = 1 }`. -/
def normalizedPage (req : ProductSearchRequest) : ℤ :=
  if req.page < 1 then 1 else req.page

/-- part_003 lines 186-188: `if searchReq.PageSize < 1 { searchReq.PageSize = 10 }`. -/
def normalizedPageSize (req : ProductSearchRequest) : ℤ :=
  if req.pageSize < 1 then 10 else req.pageSize

/-- The engine-facing search body: structured query, pagination offset
(`from`) and window size (`size`). -/
structure SearchBody where
  query : EsQuery
  fromOffset : ℤ
  size : ℤ
deriving DecidableEq, Repr

/-- part_003 lines 190 and 295-302: `from := (Page-1)*PageSize` computed on
the normalized request, window size `PageSize`. -/
def buildSearchBody (req : ProductSearchRequest) : SearchBody :=
  { query := buildQuery req
    fromOffset := (normalizedPage req - 1) * normalizedPageSize req
    size := normalizedPageSize req }

/-! ## Scoring script

Real-number reading of the Painless `script_score` source of `Search`
(part_003 lines 255-293); `Math.log10` is `Real.logb 10` and the doc
values are the indexed Product fields. -/

/-- `double stockMultiplier = doc.stock > 0 ? 1.0 : 0.3`. -/
noncomputable def stockMultiplier (p : Product) : ℝ :=
  if 0 < p.stock then 1.0 else 0.3

/-- `double ratingBoost = doc.review_count > 0 ? 0.6 + (doc.rating / 5.0) * 0.6 : 1.0`. -/
noncomputable def ratingBoost (p : Product) : ℝ :=
  if 0 < p.reviewCount then 0.6 + ((p.rating : ℝ) / 5.0) * 0.6 else 1.0

/-- `double reviewBoost = 1.0 + Math.log10(doc.review_count + 1) * 0.1`. -/
noncomputable def reviewBoost (p : Product) : ℝ :=
  1.0 + Real.logb 10 ((p.reviewCount : ℝ) + 1) * 0.1

/-- `double popularityBoost = 1.0 + Math.log10(doc.sales_count + 1) * 0.15`. -/
noncomputable def popularityBoost (p : Product) : ℝ :=
  1.0 + Real.logb 10 ((p.salesCount : ℝ) + 1) * 0.15

/-- `double engagementBoost = 1.0 + (doc.ctr * 0.2) + (Math.log10(doc.view_count + 1) * 0.05)`. -/
noncomputable def engagementBoost (p : Product) : ℝ :=
  1.0 + (p.ctr : ℝ) * 0.2 + Real.logb 10 ((p.viewCount : ℝ) + 1) * 0.05

/-- `double businessBoost = (doc.is_promoted ? 1.3 : 1.0) * (1.0 + doc.margin * 0.1)`. -/
noncomputable def businessBoost (p : Product) : ℝ :=
  (if p.isPromoted then 1.3 else 1.0) * (1.0 + (p.margin : ℝ) * 0.1)

/-- The script return value: `baseScore * stockMultiplier * ratingBoost *
reviewBoost * popularityBoost * engagementBoost * businessBoost`, where
`baseScore` is the engine `_score` for the document. -/
noncomputable def rankingScore (baseScore : ℝ) (p : Product) : ℝ :=
  baseScore * stockMultiplier p * ratingBoost p * reviewBoost p *
    popularityBoost p * engagementBoost p * businessBoost p

/-! ## Storage gateway -/

/-- Errors the repository surfaces: the distinct not-found kind
(`fmt.Errorf("product not found")` on engine status 404) versus any
other upstream failure. -/
inductive RepoError where
  | notFound
  | upstream (msg : String)
deriving DecidableEq, Repr

/-- The engine document store for one index: id/document pairs, most
recent write first. -/
abbrev Store := List (String × Product)

/-- Engine document fetch: the most recent write under the id, if any. -/
def storeLookup (s : Store) (id : String) : Option Product :=
  match s with
  | [] => none
  | (k, v) :: rest => if k = id then some v else storeLookup rest id

/-- Engine index-document operation (`esapi.IndexRequest` with
`Refresh: "true"`): overwrites the document under the id, immediately
visible to subsequent reads. -/
def storePut (s : Store) (id : String) (p : Product) : Store :=
  (id, p) :: s

/-- `GetByID` (part_003 lines 67-108): engine get by document id; a 404 is
mapped to the distinct not-found error, a found document is decoded back
into a Product. -/
def getByID (s : Store) (id : String) : Except RepoError Product :=
  match storeLookup s id with
  | none => Except.error RepoError.notFound
  | some p => Except.ok p

/-- `Create` (part_003 lines 31-48), record level: overwrites the request
request body id with the fresh UUID string and its timestamps with the two
`time.Now()` reads (line 33 then line 34), leaving every other field
as submitted. -/
def create (newId : String) (now1 now2 : ℤ) (p : Product) : Product :=
  { p with id := newId, createdAt := now1, updatedAt := now2 }

/-- `Update` (part_003 lines 111-148): first `GetByID`; on error it returns
that same error without issuing any index write; otherwise it overwrites
the request body id with the path id, refreshes the updated timestamp with the
`time.Now()` read of line 119, and re-indexes with immediate visibility. -/
def update (s : Store) (id : String) (p : Product) (now : ℤ) :
    Store × Except RepoError Product :=
  match getByID s id with
  | Except.error e => (s, Except.error e)
  | Except.ok _ =>
      let stored := { p with id := id, updatedAt := now }
      (storePut s id stored, Except.ok stored)

/-! ## Bootstrap (index provisioning) -/

/-- The engine set of existing index names. -/
structure EsIndices where
  names : List String
deriving DecidableEq, Repr

/-- Outcome of `config.CreateProductIndex`: resulting engine state,
whether the call succeeded, and whether an index-creation request was
sent to the engine. -/
structure BootstrapOutcome where
  indices : EsIndices
  success : Bool
  createIssued : Bool
deriving DecidableEq, Repr

/-- The engine index-existence check (`client.Indices.Exists` answering
status 200 exactly when the index exists). -/
def indexExists (s : EsIndices) (idx : String) : Bool :=
  s.names.contains idx

/-- `config.CreateProductIndex` (elasticsearch.go lines 149-276): checks
existence first; on status 200 returns nil at once, otherwise issues the
index-creation request with the product mapping. -/
def createProductIndex (s : EsIndices) (idx : String) : BootstrapOutcome :=
  if indexExists s idx then
    { indices := s, success := true, createIssued := false }
  else
    { indices := ⟨idx :: s.names⟩, success := true, createIssued := true }

/-! ## Sample data for concrete instantiations -/

/-- A concrete out-of-stock product record used to instantiate theorems. -/
def sampleProductOut : Product :=
  { id := "p1", name := "Laptop", description := "A gaming laptop", price := 999,
    category := "electronics", stock := 0, rating := 4, reviewCount := 10,
    salesCount := 5, viewCount := 100, ctr := 0, isPromoted := true,
    margin := 1, createdAt := 0, updatedAt := 0 }

/-! ## Claims -/

/-- Claim C1: for every product document, the ranking score computed by the
search operation scoring expression equals the product of exactly seven
factors: base relevance; stock multiplier (1.0 if stock > 0, else 0.3);
rating boost (0.6 + (rating/5.0)*0.6 when review_count > 0, else 1.0);
review boost (1.0 + log10(review_count + 1)*0.1); popularity boost
(1.0 + log10(sales_count + 1)*0.15); engagement boost
(1.0 + ctr*0.2 + log10(view_count + 1)*0.05); and business boost
((promoted ? 1.3 : 1.0) * (1.0 + margin*0.1)). -/
theorem c1_ranking_score_seven_factor_product (baseScore : ℝ) (p : Product) :
    rankingScore baseScore p =
      baseScore *
        (if 0 < p.stock then (1.0 : ℝ) else 0.3) *
        (if 0 < p.reviewCount then 0.6 + ((p.rating : ℝ) / 5.0) * 0.6 else 1.0) *
        (1.0 + Real.logb 10 ((p.reviewCount : ℝ) + 1) * 0.1) *
        (1.0 + Real.logb 10 ((p.salesCount : ℝ) + 1) * 0.15) *
        (1.0 + (p.ctr : ℝ) * 0.2 + Real.logb 10 ((p.viewCount : ℝ) + 1) * 0.05) *
        ((if p.isPromoted then (1.3 : ℝ) else 1.0) * (1.0 + (p.margin : ℝ) * 0.1)) :=
  rfl

/-- Claim C2: two documents identical except for stock (one 0, one positive),
scored with the same base relevance, have final scores in the exact ratio
1/0.3: the in-stock score equals (1/0.3) times the out-of-stock score. -/
theorem c2_out_of_stock_score_quotient (baseScore : ℝ) (p : Product) (s : ℤ)
    (hp : p.stock = 0) (hs : 0 < s) :
    rankingScore baseScore { p with stock := s } =
      (1 / 0.3) * rankingScore baseScore p := by
  simp only [rankingScore, stockMultiplier, ratingBoost, reviewBoost, popularityBoost,
    engagementBoost, businessBoost, hp]
  rw [if_pos hs, if_neg (lt_irrefl (0 : ℤ))]
  ring

/-- Concrete instance of claim C2: the in-stock copy of the sample product
scores exactly (1/0.3) times its out-of-stock original at base score 2. -/
theorem c2_out_of_stock_score_quotient_witness :
    rankingScore 2 { sampleProductOut with stock := 5 } =
      (1 / 0.3) * rankingScore 2 sampleProductOut :=
  c2_out_of_stock_score_quotient 2 sampleProductOut 5 rfl (by decide)

/-- Claim C4: page and page_size are clamped to ≥ 1 before the offset is
computed (page to max(page,1), page_size to a value ≥ 1), the offset sent
to the engine is (page - 1) * page_size over the clamped values, and the
result window size is the clamped page_size. -/
theorem c4_pagination_clamp_and_offset (req : ProductSearchRequest) :
    normalizedPage req = max req.page 1 ∧
    1 ≤ normalizedPage req ∧
    1 ≤ normalizedPageSize req ∧
    (buildSearchBody req).fromOffset =
      (normalizedPage req - 1) * normalizedPageSize req ∧
    (buildSearchBody req).size = normalizedPageSize req := by
  refine ⟨?_, ?_, ?_, rfl, rfl⟩
  · unfold normalizedPage; split <;> omega
  · unfold normalizedPage; split <;> omega
  · unfold normalizedPageSize; split <;> omega

/-- Claim C7: index provisioning is idempotent: when the backing index
already exists, bootstrap succeeds without issuing a creation request and
leaves the engine unchanged, and running bootstrap a second time after any
run is such a success-without-creation no-op. -/
theorem c7_bootstrap_idempotent (s : EsIndices) (idx : String) :
    (indexExists s idx = true →
      createProductIndex s idx =
        { indices := s, success := true, createIssued := false }) ∧
    createProductIndex (createProductIndex s idx).indices idx =
      { indices := (createProductIndex s idx).indices, success := true,
        createIssued := false } := by
  constructor
  · intro h
    simp [createProductIndex, h]
  · by_cases h : indexExists s idx = true
    · simp [createProductIndex, h]
    · simp [createProductIndex, h, indexExists]
      split <;> simp_all

/-- Concrete instance of claim C7: bootstrapping with the "products" index
already present succeeds, issues no creation request and changes nothing. -/
theorem c7_bootstrap_idempotent_witness :
    createProductIndex ⟨["products"]⟩ "products" =
      { indices := ⟨["products"]⟩, success := true, createIssued := false } :=
  (c7_bootstrap_idempotent ⟨["products"]⟩ "products").1 rfl

/-- Refutation of claim C8 as stated: `Create` reads the clock twice (once
for created_at, once for updated_at), so when the two reads return distinct
instants (here 0 and 1) the returned record has created_at ≠ updated_at. -/
theorem c8_created_equals_updated_counterexample :
    ¬ ((create "3f2a1c" 0 1 sampleProductOut).createdAt =
       (create "3f2a1c" 0 1 sampleProductOut).updatedAt) := by
  decide

/-- Claim C8 as amended: a successful create returns a record whose id is
the fresh server-assigned UUID (non-empty), whose created_at and updated_at
are the two clock reads made at creation — equal whenever those adjacent
reads return the same instant — and all of whose other fields equal the
submitted record. -/
theorem c8_create_result_amended (newId : String) (now1 now2 : ℤ) (p : Product)
    (hid : newId ≠ "") (hnow : now1 = now2) :
    (create newId now1 now2 p).id ≠ "" ∧
    (create newId now1 now2 p).createdAt = (create newId now1 now2 p).updatedAt ∧
    (create newId now1 now2 p).name = p.name ∧
    (create newId now1 now2 p).description = p.description ∧
    (create newId now1 now2 p).price = p.price ∧
    (create newId now1 now2 p).category = p.category ∧
    (create newId now1 now2 p).stock = p.stock ∧
    (create newId now1 now2 p).rating = p.rating ∧
    (create newId now1 now2 p).reviewCount = p.reviewCount ∧
    (create newId now1 now2 p).salesCount = p.salesCount ∧
    (create newId now1 now2 p).viewCount = p.viewCount ∧
    (create newId now1 now2 p).ctr = p.ctr ∧
    (create newId now1 now2 p).isPromoted = p.isPromoted ∧
    (create newId now1 now2 p).margin = p.margin :=
  ⟨hid, hnow, rfl, rfl, rfl, rfl, rfl, rfl, rfl, rfl, rfl, rfl, rfl, rfl⟩

/-- Concrete instance of amended claim C8: creating the sample product with
a non-empty UUID and coinciding clock reads yields equal timestamps and
preserves every other submitted field. -/
theorem c8_create_result_amended_witness :
    (create "3f2a1c" 5 5 sampleProductOut).id ≠ "" ∧
    (create "3f2a1c" 5 5 sampleProductOut).createdAt =
      (create "3f2a1c" 5 5 sampleProductOut).updatedAt ∧
    (create "3f2a1c" 5 5 sampleProductOut).name = sampleProductOut.name ∧
    (create "3f2a1c" 5 5 sampleProductOut).description = sampleProductOut.description ∧
    (create "3f2a1c" 5 5 sampleProductOut).price = sampleProductOut.price ∧
    (create "3f2a1c" 5 5 sampleProductOut).category = sampleProductOut.category ∧
    (create "3f2a1c" 5 5 sampleProductOut).stock = sampleProductOut.stock ∧
    (create "3f2a1c" 5 5 sampleProductOut).rating = sampleProductOut.rating ∧
    (create "3f2a1c" 5 5 sampleProductOut).reviewCount = sampleProductOut.reviewCount ∧
    (create "3f2a1c" 5 5 sampleProductOut).salesCount = sampleProductOut.salesCount ∧
    (create "3f2a1c" 5 5 sampleProductOut).viewCount = sampleProductOut.viewCount ∧
    (create "3f2a1c" 5 5 sampleProductOut).ctr = sampleProductOut.ctr ∧
    (create "3f2a1c" 5 5 sampleProductOut).isPromoted = sampleProductOut.isPromoted ∧
    (create "3f2a1c" 5 5 sampleProductOut).margin = sampleProductOut.margin :=
  c8_create_result_amended "3f2a1c" 5 5 sampleProductOut (by decide) rfl

/-- Claim C9: create modifies only the identifier, created_at and updated_at
fields: the caller-supplied id and timestamps are unconditionally overwritten
with the fresh UUID and the clock reads, and every other field of the input
record is stored unchanged. -/
theorem c9_create_frame_effect (newId : String) (now1 now2 : ℤ) (p : Product) :
    (create newId now1 now2 p).id = newId ∧
    (create newId now1 now2 p).createdAt = now1 ∧
    (create newId now1 now2 p).updatedAt = now2 ∧
    (create newId now1 now2 p).name = p.name ∧
    (create newId now1 now2 p).description = p.description ∧
    (create newId now1 now2 p).price = p.price ∧
    (create newId now1 now2 p).category = p.category ∧
    (create newId now1 now2 p).stock = p.stock ∧
    (create newId now1 now2 p).rating = p.rating ∧
    (create newId now1 now2 p).reviewCount = p.reviewCount ∧
    (create newId now1 now2 p).salesCount = p.salesCount ∧
    (create newId now1 now2 p).viewCount = p.viewCount ∧
    (create newId now1 now2 p).ctr = p.ctr ∧
    (create newId now1 now2 p).isPromoted = p.isPromoted ∧
    (create newId now1 now2 p).margin = p.margin :=
  ⟨rfl, rfl, rfl, rfl, rfl, rfl, rfl, rfl, rfl, rfl, rfl, rfl, rfl, rfl, rfl⟩

/-- Claim C3: the scoring factors are monotone in popularity and social
proof: with every other field fixed, the popularity boost is monotone in a
non-negative sales_count, the review boost is monotone in a non-negative
review_count, and (for the record valid non-negative margin) promoting a
record strictly increases its business boost. -/
theorem c3_boost_monotonicity (p : Product) (s1 s2 r1 r2 : ℤ)
    (hs0 : 0 ≤ s1) (hs : s1 ≤ s2) (hr0 : 0 ≤ r1) (hr : r1 ≤ r2)
    (hm : 0 ≤ p.margin) :
    popularityBoost { p with salesCount := s1 } ≤
      popularityBoost { p with salesCount := s2 } ∧
    reviewBoost { p with reviewCount := r1 } ≤
      reviewBoost { p with reviewCount := r2 } ∧
    businessBoost { p with isPromoted := false } <
      businessBoost { p with isPromoted := true } := by
  have hmR : (0 : ℝ) ≤ (p.margin : ℝ) := by exact_mod_cast hm
  refine ⟨?_, ?_, ?_⟩
  · simp only [popularityBoost]
    have h1 : (0 : ℝ) < (s1 : ℝ) + 1 := by
      have : (0 : ℝ) ≤ (s1 : ℝ) := by exact_mod_cast hs0
      linarith
    have h2 : (s1 : ℝ) + 1 ≤ (s2 : ℝ) + 1 := by
      have : (s1 : ℝ) ≤ (s2 : ℝ) := by exact_mod_cast hs
      linarith
    have hlog := Real.logb_le_logb_of_le (by norm_num : (1 : ℝ) < 10) h1 h2
    linarith
  · simp only [reviewBoost]
    have h1 : (0 : ℝ) < (r1 : ℝ) + 1 := by
      have : (0 : ℝ) ≤ (r1 : ℝ) := by exact_mod_cast hr0
      linarith
    have h2 : (r1 : ℝ) + 1 ≤ (r2 : ℝ) + 1 := by
      have : (r1 : ℝ) ≤ (r2 : ℝ) := by exact_mod_cast hr
      linarith
    have hlog := Real.logb_le_logb_of_le (by norm_num : (1 : ℝ) < 10) h1 h2
    linarith
  · have hb : businessBoost { p with isPromoted := false } =
        1.0 * (1.0 + (p.margin : ℝ) * 0.1) := by
      simp [businessBoost]
    have hb' : businessBoost { p with isPromoted := true } =
        1.3 * (1.0 + (p.margin : ℝ) * 0.1) := by
      simp [businessBoost]
    rw [hb, hb']
    nlinarith [hmR]

/-- Concrete instance of claim C3: on the sample product, raising
sales_count from 1 to 2 and review_count from 0 to 3 never lowers the
respective boosts, and promotion strictly raises the business boost. -/
theorem c3_boost_monotonicity_witness :
    popularityBoost { sampleProductOut with salesCount := 1 } ≤
      popularityBoost { sampleProductOut with salesCount := 2 } ∧
    reviewBoost { sampleProductOut with reviewCount := 0 } ≤
      reviewBoost { sampleProductOut with reviewCount := 3 } ∧
    businessBoost { sampleProductOut with isPromoted := false } <
      businessBoost { sampleProductOut with isPromoted := true } :=
  c3_boost_monotonicity sampleProductOut 1 2 0 3 (by decide) (by decide)
    (by decide) (by decide) (by decide)

/-- A search request with empty free text but a category filter. -/
def c5ReqFilterOnly : ProductSearchRequest :=
  { query := "", category := "electronics", minPrice := 0, maxPrice := 0,
    page := 1, pageSize := 10 }

/-- Refutation of claim C5 as stated: for a request whose free-text query is
empty but whose category is set, the builder emits no match-all clause at
all — the query is a bool/must holding only the category term filter. -/
theorem c5_match_all_counterexample :
    c5ReqFilterOnly.query = "" ∧
    buildQuery c5ReqFilterOnly ≠ EsQuery.matchAll ∧
    buildQuery c5ReqFilterOnly =
      EsQuery.boolMust [MustClause.termFilter "category" "electronics"] := by
  refine ⟨rfl, by decide, rfl⟩

/-- The text clause list is empty exactly for an empty free-text query. -/
theorem textMatchClauses_eq_nil_iff (req : ProductSearchRequest) :
    textMatchClauses req = [] ↔ req.query = "" := by
  unfold textMatchClauses
  split <;> simp_all

/-- The category clause list is empty exactly for an empty category. -/
theorem categoryClauses_eq_nil_iff (req : ProductSearchRequest) :
    categoryClauses req = [] ↔ req.category = "" := by
  unfold categoryClauses
  split <;> simp_all

/-- The price clause list is empty exactly when neither bound is positive. -/
theorem priceRangeClauses_eq_nil_iff (req : ProductSearchRequest) :
    priceRangeClauses req = [] ↔ req.minPrice ≤ 0 ∧ req.maxPrice ≤ 0 := by
  unfold priceRangeClauses
  split <;> rename_i h
  · constructor
    · intro hc
      simp at hc
    · rintro ⟨hmin, hmax⟩
      rcases h with h | h
      · exact absurd h (not_lt.mpr hmin)
      · exact absurd h (not_lt.mpr hmax)
  · push_neg at h
    simpa using h

/-- The clause list is empty exactly when no text query, no category and no
positive price bound is given. -/
theorem buildMustClauses_eq_nil_iff (req : ProductSearchRequest) :
    buildMustClauses req = [] ↔
      req.query = "" ∧ req.category = "" ∧ req.minPrice ≤ 0 ∧ req.maxPrice ≤ 0 := by
  rw [buildMustClauses, List.append_eq_nil, List.append_eq_nil,
    textMatchClauses_eq_nil_iff, categoryClauses_eq_nil_iff,
    priceRangeClauses_eq_nil_iff]
  tauto

/-- The builder yields match-all exactly when the clause list is empty. -/
theorem buildQuery_eq_matchAll_iff (req : ProductSearchRequest) :
    buildQuery req = EsQuery.matchAll ↔ buildMustClauses req = [] := by
  rcases h : buildMustClauses req with _ | ⟨c, cs⟩ <;> simp [buildQuery, h]

/-- Claim C5 as amended: the builder emits match-all exactly when the free
text is empty AND no filter clause is generated (no category, no positive
price bound); otherwise the query is the bool/must AND of the generated
clauses, which contain the weighted fuzzy multi-match clause whenever the
free text is non-empty, the exact category term filter whenever a category
is given, and the inclusive gte/lte price range whenever a bound is
positive. -/
theorem c5_query_construction_amended (req : ProductSearchRequest) :
    (buildQuery req = EsQuery.matchAll ↔
      req.query = "" ∧ req.category = "" ∧ req.minPrice ≤ 0 ∧ req.maxPrice ≤ 0) ∧
    (req.query ≠ "" →
      MustClause.multiMatch req.query
        ["name.autocomplete^3", "name^2", "description.autocomplete", "description"]
        "AUTO" "best_fields" ∈ buildMustClauses req) ∧
    (req.category ≠ "" →
      MustClause.termFilter "category" req.category ∈ buildMustClauses req) ∧
    ((0 < req.minPrice ∨ 0 < req.maxPrice) →
      MustClause.rangeFilter "price"
        (if 0 < req.minPrice then some req.minPrice else none)
        (if 0 < req.maxPrice then some req.maxPrice else none) ∈
          buildMustClauses req) ∧
    (buildMustClauses req ≠ [] →
      buildQuery req = EsQuery.boolMust (buildMustClauses req)) := by
  refine ⟨(buildQuery_eq_matchAll_iff req).trans (buildMustClauses_eq_nil_iff req),
    ?_, ?_, ?_, ?_⟩
  · intro h
    simp [buildMustClauses, textMatchClauses, h]
  · intro h
    simp [buildMustClauses, categoryClauses, h]
  · intro h
    unfold buildMustClauses priceRangeClauses
    rw [if_pos h]
    simp
  · intro h
    rcases hl : buildMustClauses req with _ | ⟨c, cs⟩
    · exact absurd hl h
    · simp [buildQuery, hl]

/-- A search request that exercises every clause of the builder. -/
def c5ReqFull : ProductSearchRequest :=
  { query := "laptop", category := "electronics", minPrice := 10, maxPrice := 100,
    page := 1, pageSize := 10 }

/-- Concrete instance of amended claim C5: the full sample request generates
the multi-match clause, the category term filter and the price range. -/
theorem c5_query_construction_amended_witness :
    MustClause.multiMatch "laptop"
      ["name.autocomplete^3", "name^2", "description.autocomplete", "description"]
      "AUTO" "best_fields" ∈ buildMustClauses c5ReqFull ∧
    MustClause.termFilter "category" "electronics" ∈ buildMustClauses c5ReqFull ∧
    MustClause.rangeFilter "price"
      (if 0 < c5ReqFull.minPrice then some c5ReqFull.minPrice else none)
      (if 0 < c5ReqFull.maxPrice then some c5ReqFull.maxPrice else none) ∈
        buildMustClauses c5ReqFull :=
  ⟨(c5_query_construction_amended c5ReqFull).2.1 (by decide),
   (c5_query_construction_amended c5ReqFull).2.2.1 (by decide),
   (c5_query_construction_amended c5ReqFull).2.2.2.1 (Or.inl (by decide))⟩

/-- Claim C6: update performs an existence check first: on a missing
identifier it fails with the very not-found error produced by read-by-id
and issues no index write (the store is unchanged); on an existing
identifier the stored document carries the path identifier (overriding any
identifier in the body) and the refreshed updated timestamp, and is
immediately readable back. -/
theorem c6_update_existence_check (s : Store) (id : String) (p : Product) (now : ℤ) :
    (getByID s id = Except.error RepoError.notFound →
      update s id p now = (s, Except.error RepoError.notFound)) ∧
    (∀ q : Product, getByID s id = Except.ok q →
      update s id p now =
        (storePut s id { p with id := id, updatedAt := now },
         Except.ok { p with id := id, updatedAt := now }) ∧
      getByID (update s id p now).1 id =
        Except.ok { p with id := id, updatedAt := now }) := by
  constructor
  · intro h
    simp [update, h]
  · intro q h
    constructor
    · simp [update, h]
    · simp only [update, h]
      simp [getByID, storePut, storeLookup]

/-- Concrete instance of claim C6: updating a missing id fails with the
not-found kind and writes nothing; updating an existing id stores the
record under the path id with the refreshed timestamp. -/
theorem c6_update_existence_check_witness :
    update [("a", sampleProductOut)] "b" sampleProductOut 7 =
      ([("a", sampleProductOut)], Except.error RepoError.notFound) ∧
    update [("a", sampleProductOut)] "a" sampleProductOut 7 =
      (storePut [("a", sampleProductOut)] "a"
        { sampleProductOut with id := "a", updatedAt := 7 },
       Except.ok { sampleProductOut with id := "a", updatedAt := 7 }) :=
  ⟨(c6_update_existence_check [("a", sampleProductOut)] "b" sampleProductOut 7).1 rfl,
   ((c6_update_existence_check [("a", sampleProductOut)] "a" sampleProductOut 7).2
      sampleProductOut rfl).1⟩

/-- Claim C10: a zero or negative price bound is treated as absent: no range
clause is generated when both bounds are ≤ 0 (in particular for
min_price = max_price = 0), a range clause with gte/lte exactly for the
positive bounds is generated when either bound is positive, and no
generated range clause ever carries a bound equal to 0. -/
theorem c10_price_bounds_positive_only (req : ProductSearchRequest) :
    (req.minPrice ≤ 0 ∧ req.maxPrice ≤ 0 →
      ∀ f g l, MustClause.rangeFilter f g l ∉ buildMustClauses req) ∧
    ((0 < req.minPrice ∨ 0 < req.maxPrice) →
      MustClause.rangeFilter "price"
        (if 0 < req.minPrice then some req.minPrice else none)
        (if 0 < req.maxPrice then some req.maxPrice else none) ∈
          buildMustClauses req) ∧
    (∀ g l, MustClause.rangeFilter "price" g l ∈ buildMustClauses req →
      g ≠ some 0 ∧ l ≠ some 0) := by
  refine ⟨?_, ?_, ?_⟩
  · rintro ⟨hmin, hmax⟩ f g l hmem
    unfold buildMustClauses textMatchClauses categoryClauses priceRangeClauses at hmem
    have hcond : ¬ (0 < req.minPrice ∨ 0 < req.maxPrice) := by
      push_neg
      exact ⟨hmin, hmax⟩
    rw [if_neg hcond] at hmem
    split at hmem <;> split at hmem <;> simp_all
  · intro h
    unfold buildMustClauses priceRangeClauses
    rw [if_pos h]
    simp
  · intro g l hmem
    unfold buildMustClauses textMatchClauses categoryClauses priceRangeClauses at hmem
    split at hmem <;> split at hmem <;> split at hmem <;> simp_all
    all_goals exact ⟨fun h0 he => absurd (he ▸ h0) (lt_irrefl 0),
      fun h0 he => absurd (he ▸ h0) (lt_irrefl 0)⟩

/-- A search request with both price bounds exactly 0. -/
def c10ReqZeroBounds : ProductSearchRequest :=
  { query := "laptop", category := "", minPrice := 0, maxPrice := 0,
    page := 1, pageSize := 10 }

/-- A search request with only a positive minimum price bound. -/
def c10ReqMinOnly : ProductSearchRequest :=
  { query := "", category := "", minPrice := 50, maxPrice := 0,
    page := 1, pageSize := 10 }

/-- Concrete instance of claim C10: min_price = max_price = 0 yields no
price clause, while min_price = 50 alone yields a gte-only range clause. -/
theorem c10_price_bounds_positive_only_witness :
    MustClause.rangeFilter "price" (some 0) none ∉
      buildMustClauses c10ReqZeroBounds ∧
    MustClause.rangeFilter "price"
      (if 0 < c10ReqMinOnly.minPrice then some c10ReqMinOnly.minPrice else none)
      (if 0 < c10ReqMinOnly.maxPrice then some c10ReqMinOnly.maxPrice else none) ∈
        buildMustClauses c10ReqMinOnly :=
  ⟨(c10_price_bounds_positive_only c10ReqZeroBounds).1
      ⟨by decide, by decide⟩ "price" (some 0) none,
   (c10_price_bounds_positive_only c10ReqMinOnly).2.1 (Or.inl (by decide))⟩

end ElasticsearchProducts
